import Mathlib

/-!
Shallow embedding of the digital-janitor document pipeline.

Each definition mirrors one Python function of the repository:
`calculate_quality_score`, `should_use_ocr` and the PDF optical stage of
`extract_text_preview_enhanced` from `src/utils/file_ops.py`; the `OCRCache`
get/set pair and the cached-lookup branch of `extract_text_preview_enhanced`;
`build_date_partition_path`, `build_semantic_path`, `sanitize_path_component`,
`is_valid_vendor` and the routing block of `node_build_plan` plus the
approval step `node_human_review` from `src/run_graph_once.py`;
`sanitize_filename`, `is_safe_path` and `validate_plan` from
`src/core/validator.py`; `resolve_collision` and `safe_move_file` from
`src/utils/file_ops.py`.

Python strings are modelled by `String`; floats by `Rat`; dictionaries with a
fixed key set by structures; the filesystem by an explicit record of existing
file and directory paths; exceptions of the external move/mkdir primitives by
boolean success parameters (the Python wrappers catch those exceptions, so the
embedding is a total function into an outcome value).  Character predicates
(`isAlphanum`, `isWhitespace`, upper-casing) follow the ASCII fragment of the
Python semantics, which is exact on every input used in the theorems below.
`pathlib` path splitting is modelled in POSIX form (separator `/`).
-/

namespace DigitalJanitor

/-- Drop characters satisfying `p` from both ends of a character list. -/
def dropBoth (p : Char → Bool) (cs : List Char) : List Char :=
  ((cs.dropWhile p).reverse.dropWhile p).reverse

/-- Python `str.strip()` with no argument: trim whitespace from both ends. -/
def pyStrip (s : String) : String :=
  String.mk (dropBoth Char.isWhitespace s.toList)

/-- Python `str.strip('.')`: trim dots from both ends. -/
def pyStripDots (s : String) : String :=
  String.mk (dropBoth (fun c => c == '.') s.toList)

/-- Python `str.rstrip('.')`: trim dots from the right end only. -/
def pyRstripDots (s : String) : String :=
  String.mk ((s.toList.reverse.dropWhile (fun c => c == '.')).reverse)

/-- Python `str.lower()` (ASCII fragment), computed characterwise. -/
def pyLower (s : String) : String :=
  String.mk (s.toList.map Char.toLower)

/-- Python `str.upper()` (ASCII fragment), computed characterwise. -/
def pyUpper (s : String) : String :=
  String.mk (s.toList.map Char.toUpper)

/-- Python slicing `s[:n]`: the first `n` characters. -/
def pyTake (s : String) (n : Nat) : String :=
  String.mk (s.toList.take n)

/-- Python `str.startswith(pre)`. -/
def pyStartsWith (s pre : String) : Bool :=
  pre.toList.isPrefixOf s.toList

/-- Split a character list at every occurrence of `sep` (the segments may be
empty, as in Python `str.split(sep)`). -/
def splitOnChar (sep : Char) : List Char → List (List Char)
  | [] => [[]]
  | c :: rest =>
    let r := splitOnChar sep rest
    if c == sep then [] :: r
    else
      match r with
      | h :: t => (c :: h) :: t
      | [] => [[c]]

/-! ### Quality scoring (`src/utils/file_ops.py`, `calculate_quality_score`) -/

/-- The punctuation characters the source counts as "normal" text, from the
string literal in `calculate_quality_score` / `should_use_ocr` (two adjacent
Python literals; the ASCII double quote occurs in both). -/
def normalPunctChars : List Char :=
  ['，', '。', '！', '？', '；', '：', '、', '\x22', '（', '）', '【', '】', '《', '》',
   ',', '.', '!', '?', ';', ':', '\x27', '\x22', '(', ')', '[', ']', '\x7b', '\x7d']

/-- A character that is not counted towards the garbage share: alphanumeric,
whitespace, or common punctuation. -/
def isNormalChar (c : Char) : Bool :=
  c.isAlphanum || c.isWhitespace || normalPunctChars.contains c

/-- The garbage share of a stripped text: one minus the fraction of normal
characters. -/
def textGarbageShare (stripped : String) : Rat :=
  1 - ((stripped.toList.filter isNormalChar).length : Rat) / (stripped.length : Rat)

/-- Step one of `calculate_quality_score`: the initial 100, set to 0 for an
empty text and reduced by 30 or 15 for short text. -/
def lengthScore (charCount : Nat) : Int :=
  if charCount = 0 then 0
  else if charCount < 50 then 100 - 30
  else if charCount < 100 then 100 - 15
  else 100

/-- Step two of `calculate_quality_score`: the garbage-share deduction,
guarded by a positive character count. -/
def garbageStep (s1 : Int) (charCount : Nat) (badShare : Rat) : Int :=
  if 0 < charCount then
    if badShare > 1/2 then s1 - 50
    else if badShare > 3/10 then s1 - 30
    else if badShare > 1/10 then s1 - 10
    else s1
  else s1

/-- Step three of `calculate_quality_score`: the confidence deduction,
guarded by a positive confidence. -/
def confidenceStep (s2 : Int) (confidence : Rat) : Int :=
  if 0 < confidence then
    if confidence < 1/2 then s2 - 20
    else if confidence < 7/10 then s2 - 10
    else s2
  else s2

/-- The three sequential deduction steps of `calculate_quality_score` before
clamping, on the stripped text. -/
def rawQualityScore (text : String) (confidence : Rat) : Int :=
  confidenceStep
    (garbageStep (lengthScore (pyStrip text).length) (pyStrip text).length
      (textGarbageShare (pyStrip text)))
    confidence

/-- Embedding of `calculate_quality_score(text, confidence)`: returns the
clamped score together with the needs-review flag. -/
def calculate_quality_score (text : String) (confidence : Rat) : Int × Bool :=
  let score := max 0 (min 100 (rawQualityScore text confidence))
  (score, decide (score < 60))

/-- The quality score as the corrected specification words it: a base score
determined by length and garbage share (zero for empty text), minus a
confidence deduction that applies only to a positive confidence, before
clamping to the range 0 to 100. -/
def specRawScore (text : String) (confidence : Rat) : Int :=
  (if (pyStrip text).length = 0 then 0
   else 100 - (if (pyStrip text).length < 50 then 30
               else if (pyStrip text).length < 100 then 15 else 0)
          - (if textGarbageShare (pyStrip text) > 1/2 then 50
             else if textGarbageShare (pyStrip text) > 3/10 then 30
             else if textGarbageShare (pyStrip text) > 1/10 then 10 else 0))
  - (if 0 < confidence ∧ confidence < 1/2 then 20
     else if 0 < confidence ∧ confidence < 7/10 then 10
     else 0)

/-! ### Date-partition routing (`src/run_graph_once.py`) -/

/-- The category to localized folder-name table `CAT_CN_MAP`. -/
def CAT_CN_MAP : List (String × String) :=
  [("invoice", "发票"), ("receipt", "票据"), ("bank_statement", "银行账单"),
   ("contract", "合同"), ("paper", "论文"), ("image", "图片"),
   ("presentation", "演示文稿"), ("default", "其他")]

/-- Lookup in `CAT_CN_MAP` with the `default` entry as fallback. -/
def catCn (category : String) : String :=
  ((CAT_CN_MAP.find? (fun p => p.1 == category)).map Prod.snd).getD "其他"

/-- The separator class of the date regex, `[-./]`. -/
def dateSeps : List Char := ['-', '.', '/']

/-- Two leading digits of a character list, if present (`\d\x7b2\x7d`). -/
def twoDigits : List Char → Option String
  | a :: b :: _ => if a.isDigit && b.isDigit then some (String.mk [a, b]) else none
  | _ => none

/-- The optional month group of the regex after the year was consumed: an
optional single separator from `[-./]` followed by two digits; if the head is
not a separator the two digits must start immediately. -/
def monthMatch (rest : List Char) : Option String :=
  match rest with
  | sep :: tail => if dateSeps.contains sep then twoDigits tail else twoDigits rest
  | [] => none

/-- The anchored match of the source regex against the date string: a year of
shape `20` plus two digits, then the optional month group; the month defaults
to `01` when the year matched but no month group did. -/
def parseYearMonth (s : String) : Option (String × String) :=
  match s.toList with
  | a :: b :: c :: d :: rest =>
    if a == '2' && b == '0' && c.isDigit && d.isDigit then
      some (String.mk [a, b, c, d], (monthMatch rest).getD "01")
    else none
  | _ => none

/-- Whether the date string opens with a year the regex accepts: `20` followed
by two digits. -/
def hasLeadingYear (s : String) : Bool :=
  match s.toList with
  | a :: b :: c :: d :: _ => a == '2' && b == '0' && c.isDigit && d.isDigit
  | _ => false

/-- Embedding of `build_date_partition_path(category, date_str)`. -/
def build_date_partition_path (category : String) (dateStr : Option String) : String :=
  let cn := catCn category
  match dateStr.bind parseYearMonth with
  | some (y, m) => cn ++ "/" ++ y ++ "/" ++ m
  | none => cn ++ "/未知年份/未知月份"

/-! ### Semantic routing and the three-tier priority (`src/run_graph_once.py`) -/

/-- The placeholder vendor values `INVALID_VENDOR_VALUES` (compared after
stripping and lower-casing). -/
def INVALID_VENDOR_VALUES : List String :=
  ["", "unknown", "n/a", "none", "无", "未知", "null"]

/-- Embedding of `is_valid_vendor(vendor)`. -/
def is_valid_vendor : Option String → Bool
  | none => false
  | some v => !(INVALID_VENDOR_VALUES.contains (pyLower (pyStrip v)))

/-- The path-illegal character class of `sanitize_path_component`. -/
def componentIllegalChars : List Char :=
  ['/', '\\', ':', '*', '?', '\x22', '<', '>', '|']

/-- Embedding of `sanitize_path_component(value)`: replace illegal characters
with underscores, strip surrounding whitespace, strip trailing dots. -/
def sanitize_path_component (value : String) : String :=
  if value.isEmpty then ""
  else pyRstripDots (pyStrip (String.mk (value.toList.map
    (fun c => if componentIllegalChars.contains c then '_' else c))))

/-- Embedding of `build_semantic_path(category, vendor)` with the default
templates of the source inlined (the category folder joined to the sanitized
vendor, or to `General` for an invalid vendor). -/
def build_semantic_path (category : String) (vendor : Option String) : String :=
  let cn := catCn category
  if is_valid_vendor vendor then cn ++ "/" ++ sanitize_path_component (vendor.getD "")
  else cn ++ "/General"

/-- Tiers two and three of the routing block of `node_build_plan`: the
date-partition rule for configured categories, else the semantic path. -/
def routeFallback (datePartitionTypes : List String) (category : String)
    (vendor : Option String) (dateStr : Option String) : String × String :=
  if datePartitionTypes.contains category then
    (build_date_partition_path category dateStr, "date_partition")
  else
    (build_semantic_path category vendor, "semantic")

/-- The full three-tier routing of `node_build_plan`: `learned` is the value
returned by the external preference lookup (`None` on a miss, an exception, or
a confidence below the floor); Python truthiness makes an empty learned string
fall through to the lower tiers. Returns the destination directory and the
`routing_source` tag. -/
def routeDestination (learned : Option String) (datePartitionTypes : List String)
    (category : String) (vendor : Option String) (dateStr : Option String) :
    String × String :=
  match learned with
  | some folder =>
    if folder.isEmpty then routeFallback datePartitionTypes category vendor dateStr
    else (folder, "memory")
  | none => routeFallback datePartitionTypes category vendor dateStr

/-! ### Approval gate (`src/run_graph_once.py`, `node_human_review`) -/

/-- The inputs the review node consults: plan validity, the extraction
metadata's needs-review flag, and the caller's auto-approve request. -/
structure ReviewInput where
  is_valid : Bool
  needs_review : Bool
  auto_approve : Bool
deriving DecidableEq

/-- The observable outputs of the review node. -/
structure ReviewOutcome where
  approved : Bool
  decision : String
  pending_file : Option String
deriving DecidableEq

/-- The pending-artifact path built by `node_human_review`: the `pending`
directory, a timestamp, and the blank-to-underscore stem cut to 30 characters. -/
def pendingArtifactPath (timestamp fileStem : String) : String :=
  "pending/plan_" ++ timestamp ++ "_" ++
    pyTake (String.mk (fileStem.toList.map (fun c => if c == ' ' then '_' else c))) 30
    ++ ".json"

/-- Embedding of `node_human_review`: an invalid plan is auto-rejected before
any policy is consulted; a low-quality extraction forces the auto-approve flag
off; auto-approve yields an immediate approval; otherwise a pending artifact
is written and its path recorded. -/
def node_human_review (inp : ReviewInput) (timestamp fileStem : String) :
    ReviewOutcome :=
  if !inp.is_valid then
    { approved := false, decision := "auto_reject_invalid", pending_file := none }
  else if inp.auto_approve && !inp.needs_review then
    { approved := true, decision := "approved", pending_file := none }
  else
    { approved := false, decision := "pending",
      pending_file := some (pendingArtifactPath timestamp fileStem) }

/-! ### Validator (`src/core/validator.py`) -/

/-- The filename-illegal character class `INVALID_WIN_CHARS`. -/
def INVALID_WIN_CHARS : List Char :=
  ['<', '>', ':', '\x22', '/', '\\', '|', '?', '*']

/-- Replace every filename-illegal character with an underscore. -/
def replaceInvalidWinChars (s : String) : String :=
  String.mk (s.toList.map (fun c => if INVALID_WIN_CHARS.contains c then '_' else c))

/-- Embedding of `sanitize_filename(filename)`: replace illegal characters,
strip surrounding whitespace, strip surrounding dots, and substitute the
default name `unnamed` when the result is empty. -/
def sanitize_filename (filename : String) : String :=
  let cleaned := pyStripDots (pyStrip (replaceInvalidWinChars filename))
  if cleaned.isEmpty then "unnamed" else cleaned

/-- The drive-letter test `^[a-zA-Z]:` of `is_safe_path`. -/
def hasDriveLetter (s : String) : Bool :=
  match s.toList with
  | a :: b :: _ => a.isAlpha && b == ':'
  | _ => false

/-- POSIX `pathlib` parts of a relative path string: split on the separator,
dropping empty and single-dot components. -/
def pathParts (s : String) : List String :=
  ((splitOnChar '/' s.toList).map String.mk).filter (fun t => t != "" && t != ".")

/-- Normalize backslashes to forward slashes, as `is_safe_path` does before
its character scan. -/
def normSlash (s : String) : String :=
  String.mk (s.toList.map (fun c => if c == '\\' then '/' else c))

/-- The illegal-character class scanned by `is_safe_path` (the colon is only
caught by the drive-letter test). -/
def pathIllegalChars : List Char := ['<', '>', '\x22', '|', '?', '*']

/-- The first illegal character, in the scan order of the source. -/
def firstIllegalChar (s : String) : Option Char :=
  pathIllegalChars.find? (fun c => s.toList.contains c)

/-- The check chain of `is_safe_path`, returning the first failure message if
any check fails. -/
def safePathErr (pathStr : String) : Option String :=
  let s := pyStrip pathStr
  if hasDriveLetter s then some "路径包含盘符，必须使用相对路径"
  else if pyStartsWith s "\\\\" || pyStartsWith s "//" then some "禁止使用 UNC 网络路径"
  else if (pathParts s).contains ".." then some "路径包含 '..' 父目录引用，存在安全风险"
  else if pyStartsWith s "/" then some "路径必须是相对路径，不能使用绝对路径"
  else
    match firstIllegalChar (normSlash s) with
    | some c => some ("路径包含非法字符: '" ++ String.mk [c] ++ "'")
    | none =>
      if pyStartsWith s "/" then some "路径不能以 '/' 开头"
      else if pyStartsWith s "\\" then some "路径不能以 '\\' 开头"
      else none

/-- Embedding of `is_safe_path(path_str)` returning the decision together
with the error message. -/
def is_safe_path (pathStr : String) : Bool × String :=
  match safePathErr pathStr with
  | some msg => (false, msg)
  | none => (true, "")

/-- The reserved device names of the validator. -/
def RESERVED_NAMES : List String :=
  ["CON", "PRN", "AUX", "NUL",
   "COM1", "COM2", "COM3", "COM4", "COM5", "COM6", "COM7", "COM8", "COM9",
   "LPT1", "LPT2", "LPT3", "LPT4", "LPT5", "LPT6", "LPT7", "LPT8", "LPT9"]

/-- `pathlib` stem of a plain file name: the part before the last dot, unless
the dot is the leading character or there is none. -/
def pathStem (s : String) : String :=
  match s.toList.reverse.dropWhile (fun c => c != '.') with
  | [] => s
  | _ :: tail => if tail.isEmpty then s else String.mk tail.reverse

/-- The fields of the source `RenamePlan` the validator reads or writes. -/
structure RenamePlan where
  category : String
  new_name : String
  dest_dir : String
  is_valid : Bool
  validation_msg : String
deriving DecidableEq

/-- The error list accumulated by `validate_plan`, in source order: the
(unreachable) empty-name error, the length error, the reserved-name error, and
the unsafe-destination error. -/
def validationErrors (plan : RenamePlan) : List String :=
  let cleaned := sanitize_filename plan.new_name
  (if cleaned != plan.new_name && cleaned.isEmpty then
     ["文件名无效: '" ++ plan.new_name ++ "' -> 清理后为空"] else [])
  ++ (if 255 < cleaned.length then
     ["文件名过长: " ++ toString cleaned.length ++ " 字符 (最大 255)"] else [])
  ++ (if RESERVED_NAMES.contains (pyUpper (pathStem cleaned)) then
     ["文件名使用了 Windows 保留名称: " ++ pyUpper (pathStem cleaned)] else [])
  ++ (match safePathErr plan.dest_dir with
     | some msg => ["目标路径不安全: " ++ msg]
     | none => [])

/-- Embedding of `validate_plan(plan)`. -/
def validate_plan (plan : RenamePlan) : RenamePlan :=
  let cleaned := sanitize_filename plan.new_name
  let errors := validationErrors plan
  if errors.isEmpty then
    { plan with new_name := cleaned, is_valid := true, validation_msg := "校验通过" }
  else
    { plan with
      new_name := cleaned
      is_valid := false
      validation_msg := String.intercalate "; " errors }

/-! ### Safe move (`src/utils/file_ops.py`) -/

/-- A destination path split as `pathlib` does: parent directory, stem, and
extension (with its leading dot). -/
structure SMPath where
  parent : String
  stem : String
  ext : String
deriving DecidableEq

/-- The full path string of a split path. -/
def SMPath.full (p : SMPath) : String := p.parent ++ "/" ++ p.stem ++ p.ext

/-- The filesystem state: the existing regular files and directories. -/
structure FS where
  files : List String
  dirs : List String
deriving DecidableEq

/-- Python `Path.exists()`. -/
def FS.existsPath (fs : FS) (p : String) : Bool :=
  fs.files.contains p || fs.dirs.contains p

/-- Python `Path.is_file()`. -/
def FS.isRegularFile (fs : FS) (p : String) : Bool := fs.files.contains p

/-- The candidate name with integer suffix `i` before the extension. -/
def suffixed (dst : SMPath) (i : Nat) : SMPath :=
  { dst with stem := dst.stem ++ "_" ++ toString i }

/-- The suffix-search loop of `resolve_collision`: try `_i`, `_(i+1)`, … for
`fuel` attempts, returning the first unused candidate. -/
def findFreeSuffix (fs : FS) (dst : SMPath) : Nat → Nat → Option SMPath
  | 0, _ => none
  | fuel + 1, i =>
    if fs.existsPath (suffixed dst i).full then findFreeSuffix fs dst fuel (i + 1)
    else some (suffixed dst i)

/-- Embedding of `resolve_collision(destination, max_attempts)`; `none` models
the RuntimeError raised when every suffix up to the bound is taken. -/
def resolve_collision (fs : FS) (dst : SMPath) (maxAttempts : Nat) : Option SMPath :=
  if fs.existsPath dst.full then findFreeSuffix fs dst maxAttempts 1 else some dst

/-- The outcome dictionary of `safe_move_file`. -/
structure MoveOutcome where
  status : String
  src : String
  original_dst : String
  dst : String
  conflict_resolved : Bool
  error : Option String
deriving DecidableEq

/-- Embedding of `safe_move_file(src, dst, create_dirs, resolve_conflicts)`.
The two boolean parameters `mkdirOk` and `moveOk` inject the success or
failure of the underlying `mkdir` and `shutil.move` primitives, whose
exceptions the source catches; the embedding is total, mirroring the
never-raises boundary. Returns the outcome together with the new filesystem
state. -/
def safe_move_file (fs : FS) (src : String) (dst : SMPath)
    (create_dirs resolve_conflicts mkdirOk moveOk : Bool) : MoveOutcome × FS :=
  let base : MoveOutcome :=
    { status := "failed", src := src, original_dst := dst.full, dst := dst.full,
      conflict_resolved := false, error := none }
  if !(fs.existsPath src) then
    ({ base with error := some ("源文件不存在: " ++ src) }, fs)
  else if !(fs.isRegularFile src) then
    ({ base with error := some ("源路径不是文件: " ++ src) }, fs)
  else
    match (if resolve_conflicts then resolve_collision fs dst 100 else some dst) with
    | none => ({ base with error := some "无法解决文件名冲突: 已尝试 100 次" }, fs)
    | some finalDst =>
      let r1 :=
        if finalDst == dst then base
        else { base with conflict_resolved := true, dst := finalDst.full }
      let doMove (fsCur : FS) : MoveOutcome × FS :=
        if moveOk then
          ({ r1 with status := "success", dst := finalDst.full, error := none },
           { fsCur with files := finalDst.full :: fsCur.files.filter (fun f => f != src) })
        else ({ r1 with error := some ("文件移动失败: " ++ finalDst.full) }, fsCur)
      if create_dirs then
        if mkdirOk then doMove { fs with dirs := finalDst.parent :: fs.dirs }
        else ({ r1 with error := some ("无法创建目标目录 " ++ finalDst.parent) }, fs)
      else
        if fs.existsPath finalDst.parent then doMove fs
        else ({ r1 with error := some ("目标目录不存在: " ++ finalDst.parent) }, fs)

/-! ### Extraction cascade (`src/utils/file_ops.py`) -/

/-- The outcome of one optical-recognition call (RapidOCR or vision): text,
mean confidence, and the error slot. -/
structure OpticalResult where
  text : String
  confidence : Rat
  error : Option String
deriving DecidableEq

/-- The vision path either raises ImportError (the feature is missing) or
returns a result dictionary. -/
inductive VisionOutcome where
  | unavailable : VisionOutcome
  | res : OpticalResult → VisionOutcome
deriving DecidableEq

/-- The configuration switches the PDF branch reads from `OCR_CONFIG`. -/
structure PdfConfig where
  enable_vision_llm : Bool
  enable_rapidocr : Bool
  important_max_pages : Nat
deriving DecidableEq

/-- The text/method/confidence/error core of an extraction result. -/
structure ExtractCore where
  text : String
  method : String
  confidence : Rat
  error : Option String
deriving DecidableEq

/-- Embedding of `should_use_ocr(extracted_text, page_count)` (the reason
string of the source is dropped; only the boolean is consumed downstream). -/
def should_use_ocr (extractedText : String) (pageCount : Nat) : Bool :=
  let stripped := pyStrip extractedText
  let charCount := stripped.length
  if charCount = 0 then true
  else if 0 < pageCount ∧ (charCount : Rat) / (pageCount : Rat) < 100 then true
  else if ((extractedText.toList.filter Char.isWhitespace).length : Rat)
            / (extractedText.toList.length : Rat) > 9/10 then true
  else if 1 - ((stripped.toList.filter isNormalChar).length : Rat)
            / (charCount : Rat) > 3/10 then true
  else false

/-- Embedding of the optical stage of `extract_text_preview_enhanced` for a
PDF, after direct extraction produced `directText` over `pageCount` pages.
External calls appear as parameters: `important` is the result of
`is_important_document`, `vision` the vision call's outcome, `ocr` the
RapidOCR outcome. -/
def pdfOpticalStage (cfg : PdfConfig) (important : Bool) (pageCount : Nat)
    (directText : String) (limit : Nat)
    (vision : VisionOutcome) (ocr : OpticalResult) : ExtractCore :=
  if should_use_ocr directText pageCount then
    let useVision := cfg.enable_vision_llm &&
      decide (pageCount ≤ cfg.important_max_pages) && important
    if useVision then
      match vision with
      | VisionOutcome.unavailable =>
        { text := pyTake ocr.text limit, method := "rapidocr",
          confidence := ocr.confidence, error := none }
      | VisionOutcome.res v =>
        if v.error.isSome then
          { text := pyTake ocr.text limit, method := "rapidocr",
            confidence := ocr.confidence, error := none }
        else
          { text := pyTake v.text limit, method := "vision_llm",
            confidence := v.confidence, error := none }
    else if cfg.enable_rapidocr then
      match ocr.error with
      | some e =>
        { text := pyTake directText limit, method := "direct_fallback",
          confidence := 3/10, error := some e }
      | none =>
        { text := pyTake ocr.text limit, method := "rapidocr",
          confidence := ocr.confidence, error := none }
    else
      { text := pyTake directText limit, method := "direct_fallback",
        confidence := 3/10, error := none }
  else
    { text := pyTake directText limit, method := "direct",
      confidence := 95/100, error := none }

/-! ### OCR cache (`src/utils/file_ops.py`, `OCRCache`) -/

/-- One cached row: the stored text, extraction method, confidence and
quality score, keyed elsewhere by the file fingerprint. -/
structure CacheEntry where
  text : String
  method : String
  confidence : Rat
  quality_score : Int
deriving DecidableEq

/-- The cache table: fingerprint-keyed rows, newest first. -/
abbrev OCRCache := List (String × CacheEntry)

/-- Embedding of `OCRCache.get(file_hash)`. -/
def cacheGet (c : OCRCache) (fileHash : String) : Option CacheEntry :=
  (c.find? (fun p => p.1 == fileHash)).map Prod.snd

/-- Embedding of `OCRCache.set(...)`, an insert-or-replace on the key. -/
def cacheSet (c : OCRCache) (fileHash : String) (e : CacheEntry) : OCRCache :=
  (fileHash, e) :: c.filter (fun p => p.1 != fileHash)

/-- The result fields filled by the cache-hit branch of
`extract_text_preview_enhanced`. -/
structure CachedExtraction where
  text : String
  method : String
  confidence : Rat
  quality_score : Int
  needs_review : Bool
  char_count : Nat
  processing_time_ms : Nat
deriving DecidableEq

/-- Embedding of the cache-hit branch of `extract_text_preview_enhanced`:
on a hit the stored text is cut to the limit, the method is tagged with the
`_cached` suffix, and the elapsed time is recorded as zero. -/
def cachedLookup (c : OCRCache) (fileHash : String) (limit : Nat) :
    Option CachedExtraction :=
  (cacheGet c fileHash).map (fun e =>
    { text := pyTake e.text limit
      method := e.method ++ "_cached"
      confidence := e.confidence
      quality_score := e.quality_score
      needs_review := decide (e.quality_score < (60 : Int))
      char_count := (pyTake e.text limit).length
      processing_time_ms := 0 })

/-! ## Theorems -/

/-- C1: the approval-gate decision of `node_human_review` — an invalid plan
always yields `auto_reject_invalid` whatever the auto-approve flag; a valid
plan whose extraction metadata demands review is never approved, even under
auto-approve, but goes to `pending`; a valid, review-free plan under
auto-approve is `approved`; otherwise the decision is `pending`, and exactly
the pending decisions record a pending-artifact path. -/
theorem c1_approval_gate (inp : ReviewInput) (timestamp fileStem : String) :
    (node_human_review inp timestamp fileStem).decision =
      (if inp.is_valid = false then "auto_reject_invalid"
       else if inp.needs_review = true then "pending"
       else if inp.auto_approve = true then "approved"
       else "pending") ∧
    (node_human_review inp timestamp fileStem).pending_file.isSome =
      decide ((node_human_review inp timestamp fileStem).decision = "pending") ∧
    (node_human_review inp timestamp fileStem).approved =
      decide ((node_human_review inp timestamp fileStem).decision = "approved") := by
  rcases inp with ⟨v, nr, aa⟩
  cases v <;> cases nr <;> cases aa <;>
    simp [node_human_review, pendingArtifactPath]

/-- C2: the three routing tiers of `node_build_plan` are consulted in strict
priority order — a non-empty learned preference is returned verbatim with
source `memory`, whatever the category or date; otherwise a category of the
date-partition set routes to the date-partition path even for a valid vendor;
otherwise the semantic path is the category folder joined to the sanitized
vendor, or to `General` for a missing or placeholder vendor. -/
theorem c2_routing_priority (learned : Option String) (dpt : List String)
    (category : String) (vendor : Option String) (dateStr : Option String) :
    (∀ folder, learned = some folder → folder.isEmpty = false →
      routeDestination learned dpt category vendor dateStr = (folder, "memory")) ∧
    ((learned = none ∨ learned = some "") → dpt.contains category = true →
      routeDestination learned dpt category vendor dateStr =
        (build_date_partition_path category dateStr, "date_partition")) ∧
    ((learned = none ∨ learned = some "") → dpt.contains category = false →
      is_valid_vendor vendor = true →
      routeDestination learned dpt category vendor dateStr =
        (catCn category ++ "/" ++ sanitize_path_component (vendor.getD ""), "semantic")) ∧
    ((learned = none ∨ learned = some "") → dpt.contains category = false →
      is_valid_vendor vendor = false →
      routeDestination learned dpt category vendor dateStr =
        (catCn category ++ "/General", "semantic")) := by
  refine ⟨?_, ?_, ?_, ?_⟩
  · intro folder hf hne
    subst hf
    simp [routeDestination, hne]
  · rintro (hf | hf) hc <;> subst hf <;> simp at hc <;>
      simp [routeDestination, routeFallback, hc] <;> try decide
  · rintro (hf | hf) hc hv <;> subst hf <;> simp at hc <;>
      simp [routeDestination, routeFallback, build_semantic_path, hc, hv] <;> try decide
  · rintro (hf | hf) hc hv <;> subst hf <;> simp at hc <;>
      simp [routeDestination, routeFallback, build_semantic_path, hc, hv] <;> try decide

/-- Witness for C2 at concrete inputs: each tier fires on an instance its
hypotheses describe. -/
theorem c2_routing_priority_witness :
    routeDestination (some "Learned/Dir") ["invoice"] "invoice" (some "ACME")
        (some "2024-03") = ("Learned/Dir", "memory") ∧
    routeDestination none ["invoice"] "invoice" (some "ACME") (some "2024-03") =
      ("发票/2024/03", "date_partition") ∧
    routeDestination none ["invoice"] "contract" (some "ACME") none =
      ("合同/ACME", "semantic") := by
  refine ⟨?_, ?_, ?_⟩
  · exact (c2_routing_priority (some "Learned/Dir") ["invoice"] "invoice"
      (some "ACME") (some "2024-03")).1 "Learned/Dir" rfl (by decide)
  · have h := (c2_routing_priority none ["invoice"] "invoice" (some "ACME")
      (some "2024-03")).2.1 (Or.inl rfl) (by decide)
    rw [h]; decide
  · have h := (c2_routing_priority none ["invoice"] "contract" (some "ACME")
      none).2.2.1 (Or.inl rfl) (by decide) (by decide)
    rw [h]; decide

/-- Helper: the confidence step written as a single deduction. -/
theorem confidenceStep_eq (s2 : Int) (conf : Rat) :
    confidenceStep s2 conf =
      s2 - (if 0 < conf ∧ conf < 1/2 then 20
            else if 0 < conf ∧ conf < 7/10 then 10 else 0) := by
  delta confidenceStep
  split_ifs <;> first | omega | tauto

/-- Helper: the first two steps written as a single base-score formula. -/
theorem lengthGarbage_eq (n : Nat) (bs : Rat) :
    garbageStep (lengthScore n) n bs =
      if n = 0 then 0
      else 100 - (if n < 50 then 30 else if n < 100 then 15 else 0)
             - (if bs > 1/2 then 50 else if bs > 3/10 then 30
                else if bs > 1/10 then 10 else 0) := by
  delta garbageStep lengthScore
  split_ifs <;> omega

/-- C5 (amended): the quality score equals the clamp to the range 0 to 100 of
the corrected raw formula — empty stripped text gives a zero base score,
length deductions of 30 or 15 apply below 50 or 100 characters, garbage-share
deductions of 50, 30 or 10 above the one-half, three-tenths or one-tenth
thresholds, and the confidence deductions of 20 or 10 apply only when the
confidence is positive; the score always lies in the range 0 to 100 and the
needs-review flag holds exactly when the score is below 60. -/
theorem c5_quality_score (text : String) (confidence : Rat) :
    (calculate_quality_score text confidence).1 =
      max 0 (min 100 (specRawScore text confidence)) ∧
    0 ≤ (calculate_quality_score text confidence).1 ∧
    (calculate_quality_score text confidence).1 ≤ 100 ∧
    ((calculate_quality_score text confidence).2 = true ↔
      (calculate_quality_score text confidence).1 < 60) := by
  have hraw : rawQualityScore text confidence = specRawScore text confidence := by
    delta rawQualityScore specRawScore
    rw [confidenceStep_eq, lengthGarbage_eq]
  refine ⟨?_, ?_, ?_, ?_⟩
  · simp only [calculate_quality_score, hraw]
  · exact le_max_left 0 _
  · exact max_le (by norm_num) (min_le_left _ _)
  · exact ⟨of_decide_eq_true, decide_eq_true⟩

/-- Counterexample to C5 as stated: the empty text scores 0 in the source
(an explicit zero assignment the claim omits), not the 100 - 30 - 20 = 50 the
claim's deductions produce (30 for length below 50 characters, 20 for
confidence below one half); the source also skips the confidence deduction
entirely because the confidence is not positive. -/
theorem c5_counterexample :
    calculate_quality_score "" 0 = (0, true) ∧ (0 : Int) ≠ 100 - 30 - 20 := by
  constructor
  · decide
  · decide

/-- Helper: without a leading year of the accepted shape the regex does not
match at all. -/
theorem parseYearMonth_eq_none (s : String) (h : hasLeadingYear s = false) :
    parseYearMonth s = none := by
  unfold hasLeadingYear at h
  unfold parseYearMonth
  cases hL : s.toList with
  | nil => rfl
  | cons a t1 =>
    cases t1 with
    | nil => rfl
    | cons b t2 =>
      cases t2 with
      | nil => rfl
      | cons c t3 =>
        cases t3 with
        | nil => rfl
        | cons d rest =>
          rw [hL] at h
          simp only [] at h
          simp [h]

/-- C6 (amended): `build_date_partition_path` parses the date only through
the single anchored pattern — a leading `20`-prefixed four-digit year, an
optional separator among `-`, `.`, `/`, and an optional two-digit month that
defaults to `01`. A date string without such a leading year — including
English month-name forms like `December 2025` — and a missing date fall back
to the literal unknown-year and unknown-month placeholders; a localized
year-month form such as `2024年03月` is not recognized as such either: its
leading year matches but its month group does not, so the year is kept and
the month defaults to `01`. The two concrete examples of the claim hold. -/
theorem c6_date_partition (category : String) (s y m : String) :
    (parseYearMonth s = some (y, m) →
      build_date_partition_path category (some s) =
        catCn category ++ "/" ++ y ++ "/" ++ m) ∧
    (parseYearMonth s = none →
      build_date_partition_path category (some s) =
        catCn category ++ "/未知年份/未知月份") ∧
    build_date_partition_path category none = catCn category ++ "/未知年份/未知月份" ∧
    build_date_partition_path "invoice" (some "2024-03") = "发票/2024/03" ∧
    build_date_partition_path "invoice" none = "发票/未知年份/未知月份" ∧
    build_date_partition_path "invoice" (some "December 2025") =
      "发票/未知年份/未知月份" ∧
    build_date_partition_path "invoice" (some "2024年03月") = "发票/2024/01" := by
  refine ⟨?_, ?_, ?_, ?_, ?_, ?_, ?_⟩
  · intro h
    simp [build_date_partition_path, h]
  · intro h
    simp [build_date_partition_path, h]
  · rfl
  · decide
  · decide
  · decide
  · decide

/-- Witness for C6 at concrete inputs: a parsed and an unparsed date string. -/
theorem c6_date_partition_witness :
    build_date_partition_path "receipt" (some "2025/07") = "票据/2025/07" ∧
    build_date_partition_path "receipt" (some "July 2025") = "票据/未知年份/未知月份" := by
  constructor
  · have h := (c6_date_partition "receipt" "2025/07" "2025" "07").1 (by decide)
    rw [h]; decide
  · have h := (c6_date_partition "receipt" "July 2025" "" "").2.1 (by decide)
    rw [h]; decide

/-- Counterexample to C6 as stated: the English month-name form the claim
says is parsed falls through to the unknown placeholders instead of the year
2025 and month 12 (localized year-month forms are not parsed as claimed
either, but they fail differently: their month is defaulted, see the last
conjunct of the claim theorem). -/
theorem c6_counterexample :
    build_date_partition_path "invoice" (some "December 2025") =
      "发票/未知年份/未知月份" ∧
    ("发票/未知年份/未知月份" : String) ≠ "发票/2025/12" := by
  constructor
  · decide
  · decide

/-- C10: a date string without a leading `20`-prefixed year is entirely
unparsed and yields both unknown placeholders, and a leading year with no
adjoining two-digit month yields the month component `01`; in particular
`1999-05` gives the placeholders and `2024` gives `发票/2024/01`. -/
theorem c10_parse_boundary (category : String) :
    (∀ s : String, hasLeadingYear s = false →
      build_date_partition_path category (some s) =
        catCn category ++ "/未知年份/未知月份") ∧
    (∀ (c d : Char) (rest : List Char), (c.isDigit && d.isDigit) = true →
      monthMatch rest = none →
      build_date_partition_path category (some (String.mk ('2' :: '0' :: c :: d :: rest))) =
        catCn category ++ "/" ++ String.mk ['2', '0', c, d] ++ "/" ++ "01") ∧
    build_date_partition_path "invoice" (some "1999-05") = "发票/未知年份/未知月份" ∧
    build_date_partition_path "invoice" (some "2024") = "发票/2024/01" := by
  refine ⟨?_, ?_, ?_, ?_⟩
  · intro s h
    simp [build_date_partition_path, parseYearMonth_eq_none s h]
  · intro c d rest hcd hm
    have hp : parseYearMonth (String.mk ('2' :: '0' :: c :: d :: rest)) =
        some (String.mk ['2', '0', c, d], "01") := by
      unfold parseYearMonth
      simp [String.toList, hcd, hm]
    simp [build_date_partition_path, hp]
  · decide
  · decide

/-- Witness for C10 at concrete inputs: a rejected leading year and a year
without an adjoining month. -/
theorem c10_parse_boundary_witness :
    build_date_partition_path "receipt" (some "0999") = "票据/未知年份/未知月份" ∧
    build_date_partition_path "receipt" (some "20777") = "票据/2077/01" := by
  constructor
  · exact (c10_parse_boundary "receipt").1 "0999" (by decide)
  · have h := (c10_parse_boundary "receipt").2.1 '7' '7' ['7'] (by decide) (by decide)
    have hs : ("20777" : String) = String.mk ('2' :: '0' :: '7' :: '7' :: ['7']) := by decide
    rw [hs, h]; decide

/-- Helper: a fresh `set` entry is found by `get` on the same fingerprint. -/
theorem cacheGet_cacheSet (c : OCRCache) (fileHash : String) (e : CacheEntry) :
    cacheGet (cacheSet c fileHash e) fileHash = some e := by
  unfold cacheGet cacheSet
  simp [List.find?]

/-- C8: storing an extraction result in the cache and re-querying the same
fingerprint with the same character limit returns the stored text, confidence
and quality score unchanged, the stored method tagged with the cached-variant
suffix, and a zero recorded elapsed time (the stored text was itself produced
under that limit, stated here as the take-idempotence hypothesis). -/
theorem c8_cache_round_trip (c : OCRCache) (fileHash : String) (e : CacheEntry)
    (limit : Nat) (h : pyTake e.text limit = e.text) :
    cachedLookup (cacheSet c fileHash e) fileHash limit =
      some ⟨e.text, e.method ++ "_cached", e.confidence, e.quality_score,
        decide (e.quality_score < (60 : Int)), e.text.length, 0⟩ := by
  unfold cachedLookup
  rw [cacheGet_cacheSet]
  simp [h]

/-- Witness for C8 at a concrete entry. -/
theorem c8_cache_round_trip_witness :
    cachedLookup (cacheSet [] "fp" ⟨"hello", "rapidocr", 1, 85⟩) "fp" 1000 =
      some ⟨"hello", "rapidocr_cached", 1, 85, false, 5, 0⟩ := by
  have h := c8_cache_round_trip [] "fp" ⟨"hello", "rapidocr", 1, 85⟩ 1000 (by decide)
  rw [h]; decide

/-- C7 (amended): in the PDF optical stage, when RapidOCR is the chosen path
and it errors, the cascade falls back to the raw direct-extraction text with
the fixed confidence 0.3 and the error preserved; when the vision path is
chosen and errors — or is unavailable — the cascade falls back to RapidOCR
and uses its outcome verbatim (its text and confidence, no error recorded),
with no further fallback to the direct text even if RapidOCR also errored;
the stage is a total function, so extraction always returns a completed
result. -/
theorem c7_optical_fallback (cfg : PdfConfig) (important : Bool)
    (pageCount : Nat) (directText : String) (limit : Nat)
    (vision : VisionOutcome) (ocr : OpticalResult) :
    (should_use_ocr directText pageCount = true →
      (cfg.enable_vision_llm && decide (pageCount ≤ cfg.important_max_pages)
        && important) = false →
      cfg.enable_rapidocr = true →
      ∀ e, ocr.error = some e →
        pdfOpticalStage cfg important pageCount directText limit vision ocr =
          ⟨pyTake directText limit, "direct_fallback", 3/10, some e⟩) ∧
    (should_use_ocr directText pageCount = true →
      (cfg.enable_vision_llm && decide (pageCount ≤ cfg.important_max_pages)
        && important) = true →
      ∀ v, vision = VisionOutcome.res v → v.error.isSome = true →
        pdfOpticalStage cfg important pageCount directText limit vision ocr =
          ⟨pyTake ocr.text limit, "rapidocr", ocr.confidence, none⟩) ∧
    (should_use_ocr directText pageCount = true →
      (cfg.enable_vision_llm && decide (pageCount ≤ cfg.important_max_pages)
        && important) = true →
      vision = VisionOutcome.unavailable →
        pdfOpticalStage cfg important pageCount directText limit vision ocr =
          ⟨pyTake ocr.text limit, "rapidocr", ocr.confidence, none⟩) := by
  refine ⟨?_, ?_, ?_⟩
  · intro hocr hnv hrap e he
    simp [pdfOpticalStage, hocr, hnv, hrap, he]
  · intro hocr hv v hvis herr
    subst hvis
    simp [pdfOpticalStage, hocr, hv, herr]
  · intro hocr hv hvis
    subst hvis
    simp [pdfOpticalStage, hocr, hv]

/-- Witness for C7: a scanned-empty PDF through the RapidOCR-error branch and
through the vision-error branch. -/
theorem c7_optical_fallback_witness :
    pdfOpticalStage ⟨false, true, 5⟩ false 1 "" 1000 VisionOutcome.unavailable
        ⟨"", 0, some "ocr boom"⟩ =
      ⟨"", "direct_fallback", 3/10, some "ocr boom"⟩ ∧
    pdfOpticalStage ⟨true, true, 5⟩ true 1 "" 1000
        (VisionOutcome.res ⟨"", 0, some "vision boom"⟩) ⟨"scan", 1, none⟩ =
      ⟨"scan", "rapidocr", 1, none⟩ := by
  constructor
  · have h := (c7_optical_fallback ⟨false, true, 5⟩ false 1 "" 1000
      VisionOutcome.unavailable ⟨"", 0, some "ocr boom"⟩).1
      (by decide) (by decide) (by decide) "ocr boom" rfl
    rw [h]; rfl
  · have h := (c7_optical_fallback ⟨true, true, 5⟩ true 1 "" 1000
      (VisionOutcome.res ⟨"", 0, some "vision boom"⟩) ⟨"scan", 1, none⟩).2.1
      (by decide) (by decide) ⟨"", 0, some "vision boom"⟩ rfl rfl
    rw [h]; rfl

/-- Counterexample to C7 as stated: with the vision path chosen, vision
erroring and RapidOCR also erroring, the result keeps RapidOCR's empty text
and zero confidence with no error recorded — not the claimed final fallback
to the raw direct text with confidence 0.3 and the error preserved. -/
theorem c7_counterexample :
    pdfOpticalStage ⟨true, true, 5⟩ true 1 "" 1000
        (VisionOutcome.res ⟨"", 0, some "vision boom"⟩)
        ⟨"", 0, some "ocr boom"⟩ =
      ⟨"", "rapidocr", 0, none⟩ ∧
    (none : Option String) ≠ some "ocr boom" ∧
    (0 : Rat) ≠ 3/10 := by
  refine ⟨?_, ?_, ?_⟩
  · rfl
  · decide
  · norm_num

/-- Helper: a suffixed candidate is never the original path. -/
theorem suffixed_ne (dst : SMPath) (k : Nat) : suffixed dst k ≠ dst := by
  intro h
  have hs := congrArg SMPath.stem h
  simp only [suffixed] at hs
  have hl := congrArg String.length hs
  simp [String.length_append] at hl
  rw [show ("_" : String).length = 1 from rfl] at hl
  omega

/-- Helper: the suffix-search loop returns the first free candidate. -/
theorem findFreeSuffix_eq_some (fs : FS) (dst : SMPath) :
    ∀ (fuel i k : Nat), i ≤ k → k < i + fuel →
      fs.existsPath (suffixed dst k).full = false →
      (∀ j, i ≤ j → j < k → fs.existsPath (suffixed dst j).full = true) →
      findFreeSuffix fs dst fuel i = some (suffixed dst k) := by
  intro fuel
  induction fuel with
  | zero => intro i k h1 h2 _ _; omega
  | succ n ih =>
    intro i k h1 h2 hfree hall
    unfold findFreeSuffix
    by_cases hi : fs.existsPath (suffixed dst i).full = true
    · have hik : i ≠ k := by
        intro he; rw [he] at hi; rw [hfree] at hi; exact Bool.false_ne_true hi
      rw [if_pos hi]
      exact ih (i + 1) k (by omega) (by omega) hfree
        (fun j hj1 hj2 => hall j (by omega) hj2)
    · have hk : k = i := by
        by_contra hne
        have hik : i < k := lt_of_le_of_ne h1 (fun he => hne he.symm)
        exact hi (hall i le_rfl hik)
      subst hk
      rw [if_neg hi]

/-- Helper: the suffix-search loop exhausts its bound when every candidate is
taken. -/
theorem findFreeSuffix_eq_none (fs : FS) (dst : SMPath) :
    ∀ (fuel i : Nat),
      (∀ j, i ≤ j → j < i + fuel → fs.existsPath (suffixed dst j).full = true) →
      findFreeSuffix fs dst fuel i = none := by
  intro fuel
  induction fuel with
  | zero => intro i _; rfl
  | succ n ih =>
    intro i hall
    unfold findFreeSuffix
    rw [if_pos (hall i le_rfl (by omega))]
    exact ih (i + 1) (fun j hj1 hj2 => hall j (by omega) (by omega))

/-- C3: with the default flags, `safe_move_file` on a source that is missing
or not a regular file fails with an error and mutates nothing; on an existing
destination with some free suffix within the 100-attempt bound it reports the
conflict as resolved and uses the smallest unused integer suffix (whatever
the outcome of the move primitives); and when all 100 suffixes are taken it
fails with an error instead of looping — the embedding being a total function
over injected primitive failures captures the never-raises boundary. -/
theorem c3_safe_move (fs : FS) (src : String) (dst : SMPath) (mkOk mvOk : Bool) :
    (fs.isRegularFile src = false →
      ((safe_move_file fs src dst true true mkOk mvOk).1.status = "failed" ∧
       (safe_move_file fs src dst true true mkOk mvOk).1.error.isSome = true ∧
       (safe_move_file fs src dst true true mkOk mvOk).2 = fs)) ∧
    (∀ k : Nat, fs.isRegularFile src = true → fs.existsPath dst.full = true →
      1 ≤ k → k ≤ 100 →
      fs.existsPath (suffixed dst k).full = false →
      (∀ j, 1 ≤ j → j < k → fs.existsPath (suffixed dst j).full = true) →
      ((safe_move_file fs src dst true true mkOk mvOk).1.conflict_resolved = true ∧
       (safe_move_file fs src dst true true mkOk mvOk).1.dst = (suffixed dst k).full)) ∧
    (fs.isRegularFile src = true → fs.existsPath dst.full = true →
      (∀ j, 1 ≤ j → j ≤ 100 → fs.existsPath (suffixed dst j).full = true) →
      ((safe_move_file fs src dst true true mkOk mvOk).1.status = "failed" ∧
       (safe_move_file fs src dst true true mkOk mvOk).1.error.isSome = true)) := by
  refine ⟨?_, ?_, ?_⟩
  · intro hreg
    by_cases hex : fs.existsPath src = true
    · simp [safe_move_file, hex, hreg]
    · simp only [Bool.not_eq_true] at hex
      simp [safe_move_file, hex]
  · intro k hreg hdst hk1 hk100 hfree hall
    have hex : fs.existsPath src = true := by
      simp only [FS.isRegularFile] at hreg
      have h1 : src ∈ fs.files := by simpa using hreg
      simp [FS.existsPath]
      exact Or.inl h1
    have hsome : resolve_collision fs dst 100 = some (suffixed dst k) := by
      unfold resolve_collision
      rw [if_pos hdst]
      exact findFreeSuffix_eq_some fs dst 100 1 k hk1 (by omega) hfree
        (fun j hj1 hj2 => hall j hj1 hj2)
    have hne : (suffixed dst k == dst) = false :=
      beq_eq_false_iff_ne.mpr (suffixed_ne dst k)
    cases mkOk <;> cases mvOk <;>
      simp [safe_move_file, hex, hreg, hsome, hne]
  · intro hreg hdst hall
    have hex : fs.existsPath src = true := by
      simp only [FS.isRegularFile] at hreg
      have h1 : src ∈ fs.files := by simpa using hreg
      simp [FS.existsPath]
      exact Or.inl h1
    have hnone : resolve_collision fs dst 100 = none := by
      unfold resolve_collision
      rw [if_pos hdst]
      exact findFreeSuffix_eq_none fs dst 100 1
        (fun j hj1 hj2 => hall j hj1 (by omega))
    simp [safe_move_file, hex, hreg, hnone]

/-- Witness for C3: a move whose destination and first suffix are taken lands
on suffix 2, and a missing source fails. -/
theorem c3_safe_move_witness :
    ((safe_move_file ⟨["inbox/a.txt", "archive/a.txt", "archive/a_1.txt"], []⟩
        "inbox/a.txt" ⟨"archive", "a", ".txt"⟩ true true true true).1.conflict_resolved
          = true ∧
     (safe_move_file ⟨["inbox/a.txt", "archive/a.txt", "archive/a_1.txt"], []⟩
        "inbox/a.txt" ⟨"archive", "a", ".txt"⟩ true true true true).1.dst
          = "archive/a_2.txt") ∧
    (safe_move_file ⟨["inbox/a.txt"], []⟩ "missing" ⟨"archive", "a", ".txt"⟩
        true true true true).1.status = "failed" := by
  constructor
  · have h := (c3_safe_move ⟨["inbox/a.txt", "archive/a.txt", "archive/a_1.txt"], []⟩
      "inbox/a.txt" ⟨"archive", "a", ".txt"⟩ true true).2.1 2 (by decide) (by decide)
      (by decide) (by decide) (by decide)
      (fun j hj1 hj2 => by
        have hj : j = 1 := by omega
        subst hj
        decide)
    exact ⟨h.1, by rw [h.2]; decide⟩
  · exact ((c3_safe_move ⟨["inbox/a.txt"], []⟩ "missing" ⟨"archive", "a", ".txt"⟩
      true true).1 (by decide)).1

/-- C9: for every input, the outcome of `safe_move_file` has status
`success` or `failed`, carries an error exactly when it failed, and its final
destination differs from the requested one only when a conflict was
resolved. -/
theorem c9_outcome_shape (fs : FS) (src : String) (dst : SMPath)
    (createDirs resolveConflicts mkOk mvOk : Bool) :
    ((safe_move_file fs src dst createDirs resolveConflicts mkOk mvOk).1.status = "success" ∨
     (safe_move_file fs src dst createDirs resolveConflicts mkOk mvOk).1.status = "failed") ∧
    ((safe_move_file fs src dst createDirs resolveConflicts mkOk mvOk).1.error.isSome =
      decide ((safe_move_file fs src dst createDirs resolveConflicts mkOk mvOk).1.status
        = "failed")) ∧
    (((safe_move_file fs src dst createDirs resolveConflicts mkOk mvOk).1.conflict_resolved
      || ((safe_move_file fs src dst createDirs resolveConflicts mkOk mvOk).1.dst ==
          (safe_move_file fs src dst createDirs resolveConflicts mkOk mvOk).1.original_dst))
      = true) := by
  unfold safe_move_file
  repeat' split
  all_goals simp_all

/-- Helper: the sanitized filename is never empty (the empty result is
replaced by the default name). -/
theorem sanitize_isEmpty_false (s : String) :
    (sanitize_filename s).isEmpty = false := by
  unfold sanitize_filename
  by_cases h : (pyStripDots (pyStrip (replaceInvalidWinChars s))).isEmpty
  · simp [h]
    decide
  · simp [h]

/-- Helper: the destination check chain succeeds exactly when every single
check passes. -/
theorem safePathErr_none_iff (p : String) :
    safePathErr p = none ↔
      (hasDriveLetter (pyStrip p) = false ∧
       pyStartsWith (pyStrip p) "\\\\" = false ∧
       pyStartsWith (pyStrip p) "//" = false ∧
       (pathParts (pyStrip p)).contains ".." = false ∧
       pyStartsWith (pyStrip p) "/" = false ∧
       firstIllegalChar (normSlash (pyStrip p)) = none ∧
       pyStartsWith (pyStrip p) "\\" = false) := by
  rcases hf : firstIllegalChar (normSlash (pyStrip p)) with _ | c
  · simp only [safePathErr, hf]
    split_ifs <;> (try simp_all) <;> (intros; simp_all)
  · simp only [safePathErr, hf]
    split_ifs <;> simp_all

/-- Helper: the validator always rewrites the name to its sanitized form. -/
theorem validate_plan_new_name (plan : RenamePlan) :
    (validate_plan plan).new_name = sanitize_filename plan.new_name := by
  unfold validate_plan
  by_cases he : (validationErrors plan).isEmpty <;> simp [he]

/-- Helper: the validity flag is exactly the emptiness of the error list. -/
theorem validate_plan_is_valid (plan : RenamePlan) :
    (validate_plan plan).is_valid = (validationErrors plan).isEmpty := by
  unfold validate_plan
  by_cases he : (validationErrors plan).isEmpty <;> simp [he]

/-- Helper: the validation message is the pass literal or the semicolon-joined
error list. -/
theorem validate_plan_msg (plan : RenamePlan) :
    (validate_plan plan).validation_msg =
      (if (validate_plan plan).is_valid then "校验通过"
       else String.intercalate "; " (validationErrors plan)) := by
  unfold validate_plan
  by_cases he : (validationErrors plan).isEmpty <;> simp [he]

/-- Helper: the error list is empty exactly when the three live checks pass
(the empty-name check can never fire because the sanitized name is never
empty). -/
theorem validationErrors_isEmpty_iff (plan : RenamePlan) :
    (validationErrors plan).isEmpty = true ↔
      ((sanitize_filename plan.new_name).length ≤ 255 ∧
       RESERVED_NAMES.contains (pyUpper (pathStem (sanitize_filename plan.new_name)))
         = false ∧
       safePathErr plan.dest_dir = none) := by
  unfold validationErrors
  rcases hsp : safePathErr plan.dest_dir with _ | msg <;>
    simp [sanitize_isEmpty_false, hsp]

/-- C4 (amended): `validate_plan` rewrites the name to its sanitized form
(illegal characters to underscores, whitespace then dots trimmed, and the
default name `unnamed` substituted for an empty result instead of any
emptiness rejection, so the stored name is never empty); the plan is valid
exactly when the cleaned name is at most 255 characters, its upper-cased stem
is not a reserved device name, and the destination passes every path check —
no drive-letter start, no leading double backslash or double slash, no `..`
segment, not absolute, no illegal character after slash-normalization, and no
leading separator; the message is the pass literal or the semicolon-joined
error list. -/
theorem c4_validator (plan : RenamePlan) :
    (validate_plan plan).new_name = sanitize_filename plan.new_name ∧
    ((validate_plan plan).new_name).isEmpty = false ∧
    ((validate_plan plan).is_valid = true ↔
      (((validate_plan plan).new_name).length ≤ 255 ∧
       RESERVED_NAMES.contains (pyUpper (pathStem (validate_plan plan).new_name))
         = false ∧
       safePathErr plan.dest_dir = none)) ∧
    (safePathErr plan.dest_dir = none ↔
      (hasDriveLetter (pyStrip plan.dest_dir) = false ∧
       pyStartsWith (pyStrip plan.dest_dir) "\\\\" = false ∧
       pyStartsWith (pyStrip plan.dest_dir) "//" = false ∧
       (pathParts (pyStrip plan.dest_dir)).contains ".." = false ∧
       pyStartsWith (pyStrip plan.dest_dir) "/" = false ∧
       firstIllegalChar (normSlash (pyStrip plan.dest_dir)) = none ∧
       pyStartsWith (pyStrip plan.dest_dir) "\\" = false)) ∧
    (validate_plan plan).validation_msg =
      (if (validate_plan plan).is_valid then "校验通过"
       else String.intercalate "; " (validationErrors plan)) := by
  refine ⟨validate_plan_new_name plan, ?_, ?_, safePathErr_none_iff plan.dest_dir,
    validate_plan_msg plan⟩
  · rw [validate_plan_new_name plan]
    exact sanitize_isEmpty_false plan.new_name
  · rw [validate_plan_new_name plan, validate_plan_is_valid plan]
    exact validationErrors_isEmpty_iff plan

/-- Counterexample to C4 as stated: dots-only input cleans to the empty
string, which the claim says is rejected; the code instead stores the default
name `unnamed` and keeps the plan valid. -/
theorem c4_counterexample :
    (validate_plan ⟨"default", "...", "archive", false, ""⟩).is_valid = true ∧
    (validate_plan ⟨"default", "...", "archive", false, ""⟩).new_name = "unnamed" ∧
    pyStripDots (pyStrip (replaceInvalidWinChars "...")) = "" := by
  refine ⟨?_, ?_, ?_⟩ <;> decide

end DigitalJanitor
